import Mathlib

/-!
Verification development for the model-sharing layer of `lenskit`
(`src/lenskit/sharing/__init__.py`).

The Python module provides two persistence strategies for cross-process
model sharing (a binpickle file-backed one and a shared-memory one), a
dispatcher choosing between them, a re-entrant model-store activation
stack, and a reference-count-based shared-object wrapper.

We shallowly embed the module: objects are a skeleton plus a list of
out-of-band byte buffers (the view `pickle` protocol 5 exposes through
`buffer_callback`), the filesystem and the shared-memory registry are
explicit association lists threaded through each operation, and
exceptions are values of `Except PyErr`.
-/

set_option autoImplicit false

namespace LKShare

/-- Python exception values that the embedded operations can raise. -/
inductive PyErr where
  | ioError
  | fileNotFound
  | nameError
  | attributeError
  | assertionError
  | indexError
deriving DecidableEq

/-- A model object, as seen by protocol-5 pickling: a small skeleton
(structure and small values) plus zero or more large out-of-band raw
buffers.  Both `pickle` and `binpickle` are external libraries; we model
their encodings through this decomposition. -/
structure Obj where
  skel : List Nat
  bufs : List (List Nat)
deriving DecidableEq

/-- `pickle.dumps(model, protocol=5, buffer_callback=cb)`: returns the
skeleton bytes, reporting the out-of-band buffers to the callback in
order.  External library, modelled as the skeleton/buffers split. -/
def pickleDumps5 (o : Obj) : List Nat × List (List Nat) :=
  (o.skel, o.bufs)

/-- `pickle.loads(data, buffers=...)`: reconstructs an object from
skeleton bytes and the out-of-band buffers, in order.  External library,
modelled as the inverse of `pickleDumps5`. -/
def pickleLoads (data : List Nat) (buffers : List (List Nat)) : Obj :=
  ⟨data, buffers⟩

/-- A temporary file path: the directory it was created in (`none` is the
system default temp directory) and a fresh numeric identifier from
`tempfile.mkstemp`. -/
structure TmpPath where
  dir : Option Nat
  id : Nat
deriving DecidableEq

/-- The filesystem: a fresh-name counter for `tempfile.mkstemp` and the
existing files with their contents (`none` = created empty, no valid
serialized object yet).  Newest entries first; lookups take the first
match. -/
structure FS where
  next : Nat
  files : List (TmpPath × Option Obj)
deriving DecidableEq

/-- `tempfile.mkstemp(suffix='.bpk', prefix='lkpy-', dir=dir)` followed by
`os.close(fd)`: creates a fresh empty file in `dir` and returns its path. -/
def FS.mkstemp (fs : FS) (dir : Option Nat) : TmpPath × FS :=
  (⟨dir, fs.next⟩, ⟨fs.next + 1, (⟨dir, fs.next⟩, none) :: fs.files⟩)

/-- Writing a serialized object to a file (the effect of
`BinPickler.mappable(path).dump(model)`). -/
def FS.write (fs : FS) (p : TmpPath) (o : Obj) : FS :=
  ⟨fs.next, (p, some o) :: fs.files⟩

/-- Reading a file's content; `none` when the path does not exist. -/
def FS.lookup (fs : FS) (p : TmpPath) : Option (Option Obj) :=
  (fs.files.find? (fun e => decide (e.1 = p))).map (fun e => e.2)

/-- Whether a path exists on the filesystem. -/
def FS.existsPath (fs : FS) (p : TmpPath) : Bool :=
  fs.files.any (fun e => decide (e.1 = p))

/-- `pathlib.Path.unlink()`: removes the file, raising
`FileNotFoundError` when it does not exist. -/
def FS.unlink (fs : FS) (p : TmpPath) : Except PyErr FS :=
  if fs.existsPath p then
    .ok ⟨fs.next, fs.files.filter (fun e => !(decide (e.1 = p)))⟩
  else
    .error .fileNotFound

/-- Embedding of class `BPKPersisted` (file-backed persisted model).
Fields mirror `path`, `is_owner`, `_bpk_file` (the open `BinPickleFile`
handle, identified by the path it has open) and `_model` (the lazy
cache). -/
structure BPKPersisted where
  path : TmpPath
  is_owner : Bool
  bpk_file : Option TmpPath
  model : Option Obj
deriving DecidableEq

/-- Embedding of `persist_binpickle(model, dir)`: create a fresh temp
file in `dir`, serialize the model into it with binpickle inside
`sharing_mode()`, and return a fresh owning handle. -/
def persist_binpickle (model : Obj) (dir : Option Nat) (fs : FS) :
    BPKPersisted × FS :=
  let pfs := fs.mkstemp dir
  (⟨pfs.1, true, none, none⟩, pfs.2.write pfs.1 model)

/-- Embedding of `BPKPersisted.get`: on first call open the binpickle
file in direct mode, load and cache the model; later calls return the
cache.  A missing or empty artifact is a fatal read error. -/
def BPKPersisted.get (h : BPKPersisted) (fs : FS) :
    Except PyErr (Option Obj × BPKPersisted) :=
  match h.bpk_file with
  | none =>
    match fs.lookup h.path with
    | some (some o) => .ok (some o, { h with bpk_file := some h.path, model := some o })
    | _ => .error .ioError
  | some _ => .ok (h.model, h)

/-- Second half of `BPKPersisted.close`: the `if self.is_owner and
unlink:` block.  `warns` carries the warnings logged so far.  The
`assert self._model is None` is modelled as raising `AssertionError`,
and `self.path.unlink()` raises when the file is gone (the code catches
neither). -/
def BPKPersisted.closePhase2 (h : BPKPersisted) (fs : FS) (unlink : Bool)
    (warns : Nat) : Except PyErr (BPKPersisted × FS × Nat) :=
  if h.is_owner && unlink then
    if h.model = none then
      match fs.unlink h.path with
      | .ok fs2 => .ok ({ h with is_owner := false }, fs2, warns)
      | .error e => .error e
    else .error .assertionError
  else .ok (h, fs, warns)

/-- Embedding of `BPKPersisted.close(unlink=True)`.  The first phase is
the `if self._bpk_file is not None:` block: clear the model cache, close
the binpickle file and clear the handle.  `closeFails` says whether the
underlying `BinPickleFile.close()` raises `IOError`; the Python code
catches that error and logs a warning (we count warnings in the
result). -/
def BPKPersisted.close (h : BPKPersisted) (fs : FS) (unlink closeFails : Bool) :
    Except PyErr (BPKPersisted × FS × Nat) :=
  match h.bpk_file with
  | some _ =>
    BPKPersisted.closePhase2 { h with model := none, bpk_file := none } fs unlink
      (if closeFails then 1 else 0)
  | none => BPKPersisted.closePhase2 h fs unlink 0

/-- Embedding of `BPKPersisted.__getstate__`: a copy of the whole
attribute dictionary with `is_owner` forced to `False`. -/
def BPKPersisted.getstate (h : BPKPersisted) : BPKPersisted :=
  { h with is_owner := false }

/-- The OS shared-memory registry: a fresh-name counter and the live
segments with their contents.  Newest first; lookups take the first
match. -/
structure SHMReg where
  next : Nat
  segs : List (Nat × List Nat)
deriving DecidableEq

/-- `shm.SharedMemory(create=True, size=n)` followed by
`block.buf[:n] = ba`: allocates a fresh segment whose first `n` bytes
are the buffer.  The OS may round the allocation up, which we model by a
uniform `pad` of trailing zero bytes (the "funny business with buffer
sizes" noted in the source). -/
def SHMReg.create (r : SHMReg) (content : List Nat) (pad : Nat) : Nat × SHMReg :=
  (r.next, ⟨r.next + 1, (r.next, content ++ List.replicate pad 0) :: r.segs⟩)

/-- `shm.SharedMemory(name=bn)`: attach to an existing segment by name;
`none` when no such segment exists (Python raises `FileNotFoundError`). -/
def SHMReg.lookupSeg (r : SHMReg) (n : Nat) : Option (List Nat) :=
  (r.segs.find? (fun e => decide (e.1 = n))).map (fun e => e.2)

/-- Whether a segment of the given name exists. -/
def SHMReg.hasSeg (r : SHMReg) (n : Nat) : Bool :=
  r.segs.any (fun e => decide (e.1 = n))

/-- `SharedMemory.unlink()`: destroys the segment, raising
`FileNotFoundError` when it no longer exists. -/
def SHMReg.unlinkSeg (r : SHMReg) (n : Nat) : Except PyErr SHMReg :=
  if r.hasSeg n then
    .ok ⟨r.next, r.segs.filter (fun e => !(decide (e.1 = n)))⟩
  else
    .error .fileNotFound

/-- Embedding of class `SHMPersisted`.  Fields mirror `pickle_data`,
`buffer_specs` (ordered (segment-name, byte-length) descriptors),
`buffers` (names of the segment handles this instance holds; the class
attribute default is `[]`), `is_owner` and `_model`. -/
structure SHMPersisted where
  pickle_data : List Nat
  buffer_specs : List (Nat × Nat)
  buffers : List Nat
  is_owner : Bool
  model : Option Obj
deriving DecidableEq

/-- The `buf_cb` loop of `persist_shm`: for each out-of-band buffer, in
order, allocate a shared-memory segment of the buffer's size, blit the
bytes in, and record the segment handle and the (name, nbytes) key. -/
def createSegs (reg : SHMReg) (pad : Nat) :
    List (List Nat) → List Nat × List (Nat × Nat) × SHMReg
  | [] => ([], [], reg)
  | ba :: rest =>
    let nr := reg.create ba pad
    let tl := createSegs nr.2 pad rest
    (nr.1 :: tl.1, (nr.1, ba.length) :: tl.2.1, tl.2.2)

/-- Embedding of `persist_shm(model)`: pickle the model at protocol 5
inside `sharing_mode()`, copying each reported buffer into a fresh
shared-memory segment, and return an owning handle holding the skeleton
bytes, the descriptor list and the live segment handles. -/
def persist_shm (model : Obj) (reg : SHMReg) (pad : Nat) :
    SHMPersisted × SHMReg :=
  let dk := pickleDumps5 model
  let segs := createSegs reg pad dk.2
  (⟨dk.1, segs.2.1, segs.1, true, none⟩, segs.2.2)

/-- The attachment loop of `SHMPersisted.get`: for each `(bn, bs)`
descriptor, in order, open segment `bn` and take a view of its first
`bs` bytes (`block.buf[:bs]`); returns the buffer views and the attached
segment names. -/
def attachBuffers (reg : SHMReg) :
    List (Nat × Nat) → Except PyErr (List (List Nat) × List Nat)
  | [] => .ok ([], [])
  | spec :: rest =>
    match reg.lookupSeg spec.1 with
    | none => .error .fileNotFound
    | some content =>
      match attachBuffers reg rest with
      | .ok vs => .ok (content.take spec.2 :: vs.1, spec.1 :: vs.2)
      | .error e => .error e

/-- Embedding of `SHMPersisted.get`: on first call attach every segment
named in `buffer_specs`, reconstruct the object from the skeleton and
the buffer views in recorded order, and cache it; later calls return the
cache. -/
def SHMPersisted.get (h : SHMPersisted) (reg : SHMReg) :
    Except PyErr (Obj × SHMPersisted) :=
  match h.model with
  | some m => .ok (m, h)
  | none =>
    match attachBuffers reg h.buffer_specs with
    | .error e => .error e
    | .ok vs =>
      let m := pickleLoads h.pickle_data vs.1
      .ok (m, { h with buffers := vs.2, model := some m })

/-- The `for buf in self.buffers: buf.close(); buf.unlink()` loop of
`SHMPersisted.close`; an error from any segment propagates (the code has
no handler). -/
def unlinkAll (reg : SHMReg) : List Nat → Except PyErr SHMReg
  | [] => .ok reg
  | n :: rest =>
    match reg.unlinkSeg n with
    | .ok r2 => unlinkAll r2 rest
    | .error e => .error e

/-- Embedding of `SHMPersisted.close(unlink=True)`: drop the model
cache; if owner, close and unlink every held segment, drop the handles
(`del self.buffers` falls back to the class attribute `[]`) and clear
ownership.  Note the `unlink` parameter is ignored by the source. -/
def SHMPersisted.close (h : SHMPersisted) (reg : SHMReg) (unlink : Bool) :
    Except PyErr (SHMPersisted × SHMReg) :=
  let h1 := { h with model := none }
  if h1.is_owner then
    match unlinkAll reg h1.buffers with
    | .ok r2 => .ok ({ h1 with buffers := [], is_owner := false }, r2)
    | .error e => .error e
  else .ok (h1, reg)

/-- Embedding of `SHMPersisted.__getstate__`: only the skeleton bytes,
the descriptor list and `is_owner = False` are transmitted; the `buffers`
and `_model` attributes are absent in the copy and fall back to the class
attribute defaults `[]` and `None`. -/
def SHMPersisted.getstate (h : SHMPersisted) : SHMPersisted :=
  ⟨h.pickle_data, h.buffer_specs, [], false, none⟩

/-- Result of the `persist` dispatcher: either a file-backed handle
(with the resulting filesystem) or a shared-memory handle (with the
resulting registry). -/
inductive PersistResult where
  | bpk (h : BPKPersisted) (fs : FS)
  | shMem (h : SHMPersisted) (reg : SHMReg)
deriving DecidableEq

/-- Whether the dispatcher chose the file-backed strategy. -/
def PersistResult.strategyIsFile : PersistResult → Bool
  | .bpk _ _ => true
  | .shMem _ _ => false

/-- The directory the file-backed handle is rooted in (`none` when the
shared-memory strategy was chosen; `some none` is the system default
temp directory). -/
def PersistResult.fileDir : PersistResult → Option (Option Nat)
  | .bpk h _ => some h.path.dir
  | .shMem _ _ => none

/-- Embedding of `persist(model)`.  `lkTmpDir` is
`os.environ.get('LK_TEMP_DIR', None)`; `shmAvail` says whether
`multiprocessing.shared_memory` imported successfully (`shm is not
None`). -/
def persist (lkTmpDir : Option Nat) (shmAvail : Bool) (model : Obj)
    (fs : FS) (reg : SHMReg) (pad : Nat) : PersistResult :=
  match lkTmpDir with
  | some d =>
    let r := persist_binpickle model (some d) fs
    .bpk r.1 r.2
  | none =>
    if shmAvail then
      let r := persist_shm model reg pad
      .shMem r.1 r.2
    else
      let r := persist_binpickle model none fs
      .bpk r.1 r.2

/-- Embedding of `BaseModelStore.put_serialized(path, binpickle=False)`,
parameterized by the concrete store's `put_model`.  The `binpickle=True`
branch of the source reads `bpk.load(path)`, but no name `bpk` is defined
anywhere in the module (the import is `binpickle`, shadowed by the
parameter), so that branch raises `NameError` at call time.  The pickle
branch unpickles the file and passes the object to `put_model`. -/
def put_serialized {κ : Type} (putModel : Obj → κ) (fs : FS) (path : TmpPath)
    (binpickle : Bool) : Except PyErr (Option κ) :=
  if binpickle then
    .error .nameError
  else
    match fs.lookup path with
    | some (some o) => .ok (some (putModel o))
    | _ => .error .ioError

/-- Whether an embedded operation completed without raising. -/
def exceptOk {ε β : Type} : Except ε β → Bool
  | .ok _ => true
  | .error _ => false

/-- An enter or exit event on a model store (`with store:` entry/exit). -/
inductive Ev where
  | enter
  | leave
deriving DecidableEq

/-- Embedding of a `BaseModelStore`'s per-instance state: `_act_count`
(a Python int, so it can in principle go negative) plus instrumentation
counters for how many times `init()` and `shutdown()` have run. -/
structure StoreSt where
  act : Int
  inits : Nat
  shuts : Nat
deriving DecidableEq

/-- A fresh store: `_act_count = 0`, no lifecycle calls yet. -/
def initStore : StoreSt := ⟨0, 0, 0⟩

/-- The thread's world: the state of every store (indexed by identity)
and the thread-local activation stack `_store_state.active`. -/
structure SysSt where
  stores : Nat → StoreSt
  stack : List Nat

/-- A fresh thread: all stores inactive, empty activation stack. -/
def initSys : SysSt := ⟨fun _ => initStore, []⟩

/-- Point update of the store map. -/
def updateStore (f : Nat → StoreSt) (sid : Nat) (s : StoreSt) : Nat → StoreSt :=
  fun n => if n = sid then s else f n

/-- Embedding of `BaseModelStore.__enter__`: call `init()` when
`_act_count == 0`, increment the count, push the store on the activation
stack. -/
def enterStore (sid : Nat) (st : SysSt) : SysSt :=
  let s := st.stores sid
  let s1 := if s.act = 0 then { s with inits := s.inits + 1 } else s
  let s2 := { s1 with act := s1.act + 1 }
  ⟨updateStore st.stores sid s2, sid :: st.stack⟩

/-- Embedding of `BaseModelStore.__exit__`: decrement `_act_count`, call
`shutdown()` when it reaches zero, then `assert _active_stores()[-1] is
self` and pop.  Indexing an empty stack raises `IndexError`; a
non-matching top raises `AssertionError` (the store state mutated before
the failing assert is unobservable to the caller, which our error value
reflects). -/
def exitStore (sid : Nat) (st : SysSt) : Except PyErr SysSt :=
  let s := st.stores sid
  let s1 := { s with act := s.act - 1 }
  let s2 := if s1.act = 0 then { s1 with shuts := s1.shuts + 1 } else s1
  match st.stack with
  | [] => .error .indexError
  | top :: rest =>
    if top = sid then .ok ⟨updateStore st.stores sid s2, rest⟩
    else .error .assertionError

/-- Run a sequence of enter/exit events against one store. -/
def runEvents (sid : Nat) : List Ev → SysSt → Except PyErr SysSt
  | [], st => .ok st
  | Ev.enter :: rest, st => runEvents sid rest (enterStore sid st)
  | Ev.leave :: rest, st =>
    match exitStore sid st with
    | .ok st2 => runEvents sid rest st2
    | .error e => .error e

/-- Well-nestedness of an event sequence started at depth `d`: no exit
ever occurs at depth zero. -/
def nested : List Ev → Nat → Bool
  | [], _ => true
  | Ev.enter :: rest, d => nested rest (d + 1)
  | Ev.leave :: rest, d => decide (0 < d) && nested rest (d - 1)

/-- Modelled from the spec: the number of inactive-to-active transitions
(enters at depth zero) in an event sequence started at depth `d`. -/
def specInitTransitions : List Ev → Nat → Nat
  | [], _ => 0
  | Ev.enter :: rest, d =>
    (if d = 0 then 1 else 0) + specInitTransitions rest (d + 1)
  | Ev.leave :: rest, d => specInitTransitions rest (d - 1)

/-- Modelled from the spec: the number of active-to-inactive transitions
(exits from depth one) in an event sequence started at depth `d`. -/
def specShutdownTransitions : List Ev → Nat → Nat
  | [], _ => 0
  | Ev.enter :: rest, d => specShutdownTransitions rest (d + 1)
  | Ev.leave :: rest, d =>
    (if d = 1 then 1 else 0) + specShutdownTransitions rest (d - 1)

/-- Embedding of class `SharedObject`.  `objAttr = none` means the
`object` attribute has been deleted (`del self.object`); `some none`
means the attribute holds Python `None`; `some (some x)` an actual
object.  `rc` is the `_rc` class attribute (default `None`), `exiting`
is `_exiting`. -/
structure SharedObject (α : Type) where
  objAttr : Option (Option α)
  rc : Option Nat
  exiting : Bool
deriving DecidableEq

/-- `SharedObject(obj)`: store the object; `_rc`/`_exiting` keep their
class-attribute defaults. -/
def SharedObject.mk0 {α : Type} (obj : Option α) : SharedObject α :=
  ⟨some obj, none, false⟩

/-- Embedding of `SharedObject.__enter__`: record
`sys.getrefcount(self.object)` (passed in as `rcNow`) in `_rc` and return
the wrapped object.  Reading a deleted attribute raises
`AttributeError`. -/
def SharedObject.enterCtx {α : Type} (w : SharedObject α) (rcNow : Nat) :
    Except PyErr (SharedObject α × Option α) :=
  match w.objAttr with
  | none => .error .attributeError
  | some o => .ok ({ w with rc := some rcNow }, o)

/-- Embedding of `SharedObject.release`.  `rcNow` is
`sys.getrefcount(self.object)` at release time.  When the attribute holds
a non-`None` object: warn (`ResourceWarning`, returned as the Bool) iff
`self._rc` is truthy and `rcNow > self._rc`, then `del self.object`.
When the attribute holds `None`, the `is not None` guard skips the whole
body.  When the attribute was already deleted, reading `self.object`
raises `AttributeError`. -/
def SharedObject.release {α : Type} (w : SharedObject α) (rcNow : Nat) :
    Except PyErr (SharedObject α × Bool) :=
  match w.objAttr with
  | none => .error .attributeError
  | some none => .ok (w, false)
  | some (some _) =>
    let warned :=
      match w.rc with
      | some b => decide (b ≠ 0) && decide (b < rcNow)
      | none => false
    .ok ({ w with objAttr := none }, warned)

/-! ## Theorems -/

/-- Helper: `find?` skips a prefix on which the predicate is false. -/
theorem find?_append_none {α : Type} (p : α → Bool) :
    ∀ (l1 l2 : List α), (∀ e ∈ l1, p e = false) →
      (l1 ++ l2).find? p = l2.find? p := by
  intro l1
  induction l1 with
  | nil => intro l2 _; rfl
  | cons a l ih =>
    intro l2 h
    rw [List.cons_append,
      List.find?_cons_of_neg _ (by simp [h a (by simp)]),
      ih l2 (fun e he => h e (by simp [he]))]

/-- Helper: the segments created by `createSegs` sit in front of the
prior registry contents, and all carry names at or above the prior
fresh-name counter. -/
theorem createSegs_segs (pad : Nat) :
    ∀ (bufs : List (List Nat)) (reg : SHMReg),
      ∃ newSegs, (createSegs reg pad bufs).2.2.segs = newSegs ++ reg.segs ∧
        ∀ e ∈ newSegs, reg.next ≤ e.1 := by
  intro bufs
  induction bufs with
  | nil => intro reg; exact ⟨[], rfl, by simp⟩
  | cons ba rest ih =>
    intro reg
    obtain ⟨ns, hseg, hge⟩ := ih (reg.create ba pad).2
    refine ⟨ns ++ [(reg.next, ba ++ List.replicate pad 0)], ?_, ?_⟩
    · show (createSegs (reg.create ba pad).2 pad rest).2.2.segs = _
      rw [hseg]
      simp [SHMReg.create]
    · intro e he
      rcases List.mem_append.mp he with hm | hm
      · have := hge e hm
        simp only [SHMReg.create] at this
        omega
      · simp only [List.mem_singleton] at hm
        subst hm
        exact Nat.le_refl _

/-- Helper: attaching the descriptors recorded by `createSegs` against
the registry it produced recovers exactly the original buffers, in
order, and the created segment names. -/
theorem createSegs_attach (pad : Nat) :
    ∀ (bufs : List (List Nat)) (reg : SHMReg),
      attachBuffers (createSegs reg pad bufs).2.2 (createSegs reg pad bufs).2.1
        = .ok (bufs, (createSegs reg pad bufs).1) := by
  intro bufs
  induction bufs with
  | nil => intro reg; rfl
  | cons ba rest ih =>
    intro reg
    have hlook : (createSegs (reg.create ba pad).2 pad rest).2.2.lookupSeg reg.next
        = some (ba ++ List.replicate pad 0) := by
      obtain ⟨ns, hseg, hge⟩ := createSegs_segs pad rest (reg.create ba pad).2
      unfold SHMReg.lookupSeg
      rw [hseg, find?_append_none]
      · show ((reg.create ba pad).2.segs.find? _).map _ = _
        simp [SHMReg.create, List.find?_cons_of_pos]
      · intro e he
        have := hge e he
        simp only [SHMReg.create] at this
        simp only [decide_eq_false_iff_not]
        omega
    show attachBuffers (createSegs (reg.create ba pad).2 pad rest).2.2
        ((reg.next, ba.length) :: (createSegs (reg.create ba pad).2 pad rest).2.1)
      = .ok (ba :: rest, reg.next :: (createSegs (reg.create ba pad).2 pad rest).1)
    rw [attachBuffers, hlook, ih (reg.create ba pad).2]
    have htake : (ba ++ List.replicate pad 0).take ba.length = ba :=
      List.take_left ba (List.replicate pad 0)
    simp [htake]

/-- Claim C1: for every object and both strategies, `get()` on the
handle returned by persisting the object, in the same process, returns
an object structurally equal to the original. -/
theorem persist_get_roundtrip (model : Obj) (dir : Option Nat) (fs : FS)
    (reg : SHMReg) (pad : Nat) :
    (BPKPersisted.get (persist_binpickle model dir fs).1
        (persist_binpickle model dir fs).2).map Prod.fst = .ok (some model) ∧
    (SHMPersisted.get (persist_shm model reg pad).1
        (persist_shm model reg pad).2).map Prod.fst = .ok model := by
  constructor
  · simp [persist_binpickle, BPKPersisted.get, FS.mkstemp, FS.write, FS.lookup,
      List.find?_cons_of_pos, Except.map]
  · show (SHMPersisted.get
        ⟨model.skel, (createSegs reg pad model.bufs).2.1,
         (createSegs reg pad model.bufs).1, true, none⟩
        (createSegs reg pad model.bufs).2.2).map Prod.fst = .ok model
    rw [SHMPersisted.get]
    rw [createSegs_attach pad model.bufs reg]
    rfl

/-- Claim C2: `persist` selects the strategy in order: a configured
temp-directory override forces a file-backed handle rooted in that
directory; otherwise shared memory is used when available; otherwise a
file-backed handle in the system default temp directory. -/
theorem persist_strategy_selection (d : Nat) (sa : Bool) (model : Obj)
    (fs : FS) (reg : SHMReg) (pad : Nat) :
    (persist (some d) sa model fs reg pad).strategyIsFile = true ∧
    (persist (some d) sa model fs reg pad).fileDir = some (some d) ∧
    (persist none true model fs reg pad).strategyIsFile = false ∧
    (persist none false model fs reg pad).strategyIsFile = true ∧
    (persist none false model fs reg pad).fileDir = some none :=
  ⟨rfl, rfl, rfl, rfl, rfl⟩

/-- Claim C9: evaluating `put_serialized` at a stored artifact.  The
`binpickle=True` branch raises `NameError` (the source reads the
undefined name `bpk`) instead of loading the artifact, while the pickle
branch loads the object and passes it to `put_model`. -/
theorem put_serialized_binpickle_branch_fails :
    put_serialized (fun o : Obj => o) ⟨1, [(⟨none, 0⟩, some ⟨[1], []⟩)]⟩
      ⟨none, 0⟩ true = .error .nameError ∧
    put_serialized (fun o : Obj => o) ⟨1, [(⟨none, 0⟩, some ⟨[1], []⟩)]⟩
      ⟨none, 0⟩ false = .ok (some ⟨[1], []⟩) :=
  ⟨rfl, rfl⟩

/-- Helper: closing a non-owning `BPKPersisted` whose file handle is
already closed does nothing. -/
theorem bpk_close_inert (h : BPKPersisted) (fs : FS) (u cf : Bool)
    (hbf : h.bpk_file = none) (ho : h.is_owner = false) :
    BPKPersisted.close h fs u cf = .ok (h, fs, 0) := by
  simp [BPKPersisted.close, BPKPersisted.closePhase2, hbf, ho]

/-- Helper: a successful owner phase of `close(unlink=True)` leaves a
handle with the input's file-handle field and no ownership. -/
theorem bpk_closePhase2_ok_state (x h1 : BPKPersisted) (fs fs1 : FS)
    (wn w : Nat)
    (hph : BPKPersisted.closePhase2 x fs true wn = .ok (h1, fs1, w)) :
    h1.bpk_file = x.bpk_file ∧ h1.is_owner = false := by
  unfold BPKPersisted.closePhase2 at hph
  cases hox : x.is_owner with
  | false =>
    rw [hox] at hph
    simp at hph
    obtain ⟨heq, -, -⟩ := hph
    subst heq
    exact ⟨rfl, hox⟩
  | true =>
    rw [hox] at hph
    simp only [Bool.true_and, if_true] at hph
    by_cases hxm : x.model = none
    · rw [if_pos hxm] at hph
      cases hun : fs.unlink x.path with
      | error e => rw [hun] at hph; simp at hph
      | ok fs2 =>
        rw [hun] at hph
        simp at hph
        obtain ⟨heq, -, -⟩ := hph
        subst heq
        exact ⟨rfl, rfl⟩
    · rw [if_neg hxm] at hph
      simp at hph

/-- Helper: a successful first `close(unlink=True)` leaves a
`BPKPersisted` with no open file handle and no ownership. -/
theorem bpk_close_ok_state (h h1 : BPKPersisted) (fs fs1 : FS) (w : Nat)
    (cf : Bool) (hcl : BPKPersisted.close h fs true cf = .ok (h1, fs1, w)) :
    h1.bpk_file = none ∧ h1.is_owner = false := by
  unfold BPKPersisted.close at hcl
  cases hbf : h.bpk_file with
  | some p =>
    rw [hbf] at hcl
    exact bpk_closePhase2_ok_state _ _ _ _ _ _ hcl
  | none =>
    rw [hbf] at hcl
    have := bpk_closePhase2_ok_state _ _ _ _ _ _ hcl
    exact ⟨hbf ▸ this.1, this.2⟩

/-- Helper: rebuilding a non-owning `SHMPersisted` whose cache is empty
with `is_owner := false` and `model := none` changes nothing. -/
theorem shm_fields_eta (x : SHMPersisted) (hm : x.model = none)
    (ho : x.is_owner = false) :
    (⟨x.pickle_data, x.buffer_specs, x.buffers, false, none⟩ : SHMPersisted)
      = x := by
  cases x
  simp_all

/-- Claim C3: for handles of either strategy, after `close()` has run
once (successfully, with the default `unlink=True`), a second `close()`
is a no-op: it raises no exception, changes nothing, and does not
release the backing file or shared-memory segments a second time. -/
theorem close_second_call_noop :
    (∀ (hb h1 : BPKPersisted) (fs fs1 : FS) (w : Nat) (cf1 u cf : Bool),
        BPKPersisted.close hb fs true cf1 = .ok (h1, fs1, w) →
        BPKPersisted.close h1 fs1 u cf = .ok (h1, fs1, 0)) ∧
    (∀ (hs h1 : SHMPersisted) (reg reg1 : SHMReg) (u1 u : Bool),
        SHMPersisted.close hs reg u1 = .ok (h1, reg1) →
        SHMPersisted.close h1 reg1 u = .ok (h1, reg1)) := by
  constructor
  · intro hb h1 fs fs1 w cf1 u cf hcl
    obtain ⟨hbf, ho⟩ := bpk_close_ok_state hb h1 fs fs1 w cf1 hcl
    exact bpk_close_inert h1 fs1 u cf hbf ho
  · intro hs h1 reg reg1 u1 u hcl
    unfold SHMPersisted.close at hcl
    have key : h1.is_owner = false ∧ h1.model = none := by
      cases hos : hs.is_owner with
      | false =>
        simp [hos] at hcl
        obtain ⟨heq, -⟩ := hcl
        subst heq
        exact ⟨rfl, rfl⟩
      | true =>
        simp only [hos, if_true] at hcl
        cases hua : unlinkAll reg hs.buffers with
        | error e => rw [hua] at hcl; simp at hcl
        | ok r2 =>
          rw [hua] at hcl
          simp at hcl
          obtain ⟨heq, -⟩ := hcl
          subst heq
          exact ⟨rfl, rfl⟩
    simp [SHMPersisted.close, key.1, shm_fields_eta h1 key.2 key.1]

/-- Counterexample to claim C7: a file-backed handle is persisted, its
temp file is removed externally (e.g. by a tmp reaper), and the owner's
`close()` then raises `FileNotFoundError` from `self.path.unlink()` —
the deletion failure is not logged-and-swallowed but propagates. -/
theorem close_unlink_failure_raises :
    FS.unlink (persist_binpickle ⟨[1], []⟩ none ⟨0, []⟩).2 ⟨none, 0⟩
      = .ok ⟨1, []⟩ ∧
    BPKPersisted.close (persist_binpickle ⟨[1], []⟩ none ⟨0, []⟩).1 ⟨1, []⟩
      true false = .error .fileNotFound :=
  ⟨rfl, rfl⟩

/-- Helper: whether the owner phase of `BPKPersisted.close` raises does
not depend on the warnings already logged. -/
theorem closePhase2_ok_independent_of_warns (x : BPKPersisted) (fs : FS)
    (u : Bool) (w1 w2 : Nat) :
    exceptOk (BPKPersisted.closePhase2 x fs u w1)
      = exceptOk (BPKPersisted.closePhase2 x fs u w2) := by
  unfold BPKPersisted.closePhase2
  by_cases hg : (x.is_owner && u) = true
  · rw [if_pos hg, if_pos hg]
    by_cases hm : x.model = none
    · rw [if_pos hm, if_pos hm]
      cases fs.unlink x.path <;> rfl
    · rw [if_neg hm, if_neg hm]
  · rw [if_neg hg, if_neg hg]; rfl

/-- Claim C7 (amended): an `IOError` from closing the binpickle file in
`BPKPersisted.close` is caught and logged as a warning (whether close
succeeds never depends on it, and a non-owner close records the warning
and returns normally); but a failure to delete the temp file
(`path.unlink`) and a failure to close/unlink a shared-memory segment
are not caught and propagate to the caller. -/
theorem teardown_error_handling :
    (∀ (h : BPKPersisted) (fs : FS) (u : Bool),
       exceptOk (BPKPersisted.close h fs u true)
         = exceptOk (BPKPersisted.close h fs u false)) ∧
    (∀ (h : BPKPersisted) (fs : FS) (p : TmpPath), h.bpk_file = some p →
       h.is_owner = false →
       BPKPersisted.close h fs false true
         = .ok ({ h with model := none, bpk_file := none }, fs, 1)) ∧
    (∀ (h : BPKPersisted) (fs : FS), h.is_owner = true → h.bpk_file = none →
       h.model = none → fs.existsPath h.path = false →
       BPKPersisted.close h fs true false = .error .fileNotFound) ∧
    (∀ (hs : SHMPersisted) (reg : SHMReg) (u : Bool) (n : Nat)
       (rest : List Nat), hs.is_owner = true → hs.buffers = n :: rest →
       reg.hasSeg n = false →
       SHMPersisted.close hs reg u = .error .fileNotFound) := by
  refine ⟨?_, ?_, ?_, ?_⟩
  · intro h fs u
    unfold BPKPersisted.close
    cases h.bpk_file <;> apply closePhase2_ok_independent_of_warns
  · intro h fs p hbf ho
    simp [BPKPersisted.close, hbf, BPKPersisted.closePhase2, ho]
  · intro h fs ho hbf hm hex
    simp [BPKPersisted.close, hbf, BPKPersisted.closePhase2, ho, hm,
      FS.unlink, hex]
  · intro hs reg u n rest hos hb hseg
    simp [SHMPersisted.close, hos, hb, unlinkAll, SHMReg.unlinkSeg, hseg]

/-- Witness for C7 (amended): concrete instances of the caught file
close failure and of the two propagating unlink failures. -/
theorem teardown_error_handling_witness :
    BPKPersisted.close ⟨⟨none, 0⟩, false, some ⟨none, 0⟩, none⟩ ⟨1, []⟩
      false true = .ok (⟨⟨none, 0⟩, false, none, none⟩, ⟨1, []⟩, 1) ∧
    BPKPersisted.close ⟨⟨none, 0⟩, true, none, none⟩ ⟨1, []⟩ true false
      = .error .fileNotFound ∧
    SHMPersisted.close ⟨[5], [(0, 1)], [0], true, none⟩ ⟨1, []⟩ true
      = .error .fileNotFound :=
  ⟨teardown_error_handling.2.1 ⟨⟨none, 0⟩, false, some ⟨none, 0⟩, none⟩
      ⟨1, []⟩ ⟨none, 0⟩ rfl rfl,
   teardown_error_handling.2.2.1 ⟨⟨none, 0⟩, true, none, none⟩ ⟨1, []⟩
      rfl rfl rfl rfl,
   teardown_error_handling.2.2.2 ⟨[5], [(0, 1)], [0], true, none⟩ ⟨1, []⟩
      true 0 [] rfl rfl rfl⟩

/-- Witness for C3: concrete first closes for both strategies, then the
second close of each is a no-op. -/
theorem close_second_call_noop_witness :
    BPKPersisted.close ⟨⟨none, 0⟩, false, none, none⟩ ⟨1, []⟩ true false
      = .ok (⟨⟨none, 0⟩, false, none, none⟩, ⟨1, []⟩, 0) ∧
    SHMPersisted.close ⟨[5], [(0, 1)], [], false, none⟩ ⟨1, []⟩ true
      = .ok (⟨[5], [(0, 1)], [], false, none⟩, ⟨1, []⟩) :=
  ⟨close_second_call_noop.1 ⟨⟨none, 0⟩, true, none, none⟩
      ⟨⟨none, 0⟩, false, none, none⟩ ⟨1, [(⟨none, 0⟩, some ⟨[1], []⟩)]⟩ ⟨1, []⟩
      0 false true false rfl,
   close_second_call_noop.2 ⟨[5], [(0, 1)], [0], true, none⟩
      ⟨[5], [(0, 1)], [], false, none⟩ ⟨1, [(0, [7])]⟩ ⟨1, []⟩ true true rfl⟩

/-- Helper: `updateStore` at the written key. -/
theorem updateStore_self (f : Nat → StoreSt) (sid : Nat) (s : StoreSt) :
    updateStore f sid s sid = s := by
  simp [updateStore]

/-- Helper: field changes made by `__enter__`. -/
theorem enterStore_self (st : SysSt) (sid : Nat) :
    ((enterStore sid st).stores sid).act = (st.stores sid).act + 1 ∧
    ((enterStore sid st).stores sid).inits
      = (st.stores sid).inits + (if (st.stores sid).act = 0 then 1 else 0) ∧
    ((enterStore sid st).stores sid).shuts = (st.stores sid).shuts ∧
    (enterStore sid st).stack = sid :: st.stack := by
  unfold enterStore updateStore
  by_cases h0 : (st.stores sid).act = 0 <;> simp [h0]

/-- Helper: `__exit__` when the stack top matches the exiting store. -/
theorem exitStore_self (st : SysSt) (sid : Nat) (rest : List Nat)
    (hstk : st.stack = sid :: rest) :
    exitStore sid st = .ok
      ⟨updateStore st.stores sid
        ⟨(st.stores sid).act - 1, (st.stores sid).inits,
         (st.stores sid).shuts
           + (if (st.stores sid).act - 1 = 0 then 1 else 0)⟩,
       rest⟩ := by
  unfold exitStore
  rw [hstk]
  by_cases h0 : (st.stores sid).act - 1 = 0 <;> simp [h0]

/-- Helper: the main activation-stack induction.  Running a well-nested
event sequence from a state whose store-0 activation count is `d` and
whose stack is `d` copies of store 0 succeeds, and the `init()` and
`shutdown()` call counters grow by exactly the number of
zero-to-nonzero (resp. nonzero-to-zero) transitions of the nesting
depth. -/
theorem runEvents_counts (evs : List Ev) :
    ∀ (d : Nat) (st : SysSt),
      nested evs d = true →
      (st.stores 0).act = (d : Int) →
      st.stack = List.replicate d 0 →
      (runEvents 0 evs st).map
          (fun st2 => ((st2.stores 0).inits, (st2.stores 0).shuts))
        = .ok ((st.stores 0).inits + specInitTransitions evs d,
               (st.stores 0).shuts + specShutdownTransitions evs d) := by
  induction evs with
  | nil =>
    intro d st _ _ _
    simp [runEvents, specInitTransitions, specShutdownTransitions, Except.map]
  | cons e rest ih =>
    intro d st hn hact hstk
    cases e with
    | enter =>
      obtain ⟨ha, hi, hsh, hsk⟩ := enterStore_self st 0
      have hn2 : nested rest (d + 1) = true := hn
      have hact2 : ((enterStore 0 st).stores 0).act = ((d + 1 : Nat) : Int) := by
        rw [ha, hact]; push_cast; ring
      have hstk2 : (enterStore 0 st).stack = List.replicate (d + 1) 0 := by
        rw [hsk, hstk, List.replicate_succ]
      have hrec := ih (d + 1) (enterStore 0 st) hn2 hact2 hstk2
      have hrun : runEvents 0 (Ev.enter :: rest) st
          = runEvents 0 rest (enterStore 0 st) := rfl
      rw [hrun, hrec, hi, hsh]
      have hiteq : (if (st.stores 0).act = 0 then 1 else 0)
          = (if d = 0 then (1 : Nat) else 0) := by
        rw [hact]
        by_cases hd : d = 0 <;> simp [hd]
      rw [hiteq]
      simp only [specInitTransitions, specShutdownTransitions,
        Except.ok.injEq, Prod.mk.injEq]
      constructor <;> first | trivial | omega
    | leave =>
      have hn' : (decide (0 < d) && nested rest (d - 1)) = true := hn
      rw [Bool.and_eq_true, decide_eq_true_eq] at hn'
      obtain ⟨hdpos, hn2⟩ := hn'
      obtain ⟨k, rfl⟩ : ∃ k, d = k + 1 := ⟨d - 1, by omega⟩
      have hstk' : st.stack = 0 :: List.replicate k 0 := by
        rw [hstk, List.replicate_succ]
      have hex := exitStore_self st 0 (List.replicate k 0) hstk'
      have hact2 : ((⟨updateStore st.stores 0
          ⟨(st.stores 0).act - 1, (st.stores 0).inits,
           (st.stores 0).shuts
             + (if (st.stores 0).act - 1 = 0 then 1 else 0)⟩,
          List.replicate k 0⟩ : SysSt).stores 0).act = ((k : Nat) : Int) := by
        show (updateStore st.stores 0 _ 0).act = _
        rw [updateStore_self]
        show (st.stores 0).act - 1 = _
        rw [hact]; push_cast; ring
      have hrec := ih k _ hn2 hact2 rfl
      have hrun : runEvents 0 (Ev.leave :: rest) st
          = runEvents 0 rest ⟨updateStore st.stores 0
              ⟨(st.stores 0).act - 1, (st.stores 0).inits,
               (st.stores 0).shuts
                 + (if (st.stores 0).act - 1 = 0 then 1 else 0)⟩,
              List.replicate k 0⟩ := by
        show (match exitStore 0 st with
              | .ok st2 => runEvents 0 rest st2
              | .error e => .error e) = _
        rw [hex]
      rw [hrun, hrec]
      have hiteq : ((st.stores 0).act - 1 = 0) ↔ (k = 0) := by
        rw [hact]; constructor <;> intro hcase <;> omega
      have hite2 : (if (st.stores 0).act - 1 = 0 then (1 : Nat) else 0)
          = (if k = 0 then 1 else 0) := if_congr hiteq rfl rfl
      have hite3 : (if k + 1 = 1 then (1 : Nat) else 0)
          = (if k = 0 then 1 else 0) := if_congr (by omega) rfl rfl
      simp only [updateStore_self, specInitTransitions, specShutdownTransitions,
        hite2, hite3, Nat.add_sub_cancel, Except.ok.injEq, Prod.mk.injEq]
      constructor <;> first | trivial | omega

/-- Claim C5: for every well-nested sequence of enter/exit operations on
one store, `init()` runs exactly once per zero-to-nonzero transition of
the activation count and `shutdown()` exactly once per nonzero-to-zero
transition; re-entrant enters and exits in between call neither. -/
theorem store_activation_lifecycle (evs : List Ev)
    (h : nested evs 0 = true) :
    (runEvents 0 evs initSys).map
        (fun st2 => ((st2.stores 0).inits, (st2.stores 0).shuts))
      = .ok (specInitTransitions evs 0, specShutdownTransitions evs 0) := by
  have hmain := runEvents_counts evs 0 initSys h rfl rfl
  simpa [initSys, initStore] using hmain

/-- Witness for C5: the sequence enter, enter, exit, exit, enter, exit
has two zero-to-nonzero and two nonzero-to-zero transitions, and the run
records exactly two `init()` and two `shutdown()` calls. -/
theorem store_activation_lifecycle_witness :
    (runEvents 0 [Ev.enter, Ev.enter, Ev.leave, Ev.leave, Ev.enter, Ev.leave]
        initSys).map
        (fun st2 => ((st2.stores 0).inits, (st2.stores 0).shuts))
      = .ok (2, 2) := by
  have h := store_activation_lifecycle
    [Ev.enter, Ev.enter, Ev.leave, Ev.leave, Ev.enter, Ev.leave] (by decide)
  rw [h]
  rfl

/-- Claim C6: exiting a store whose entry is not the most recently
pushed item on the activation stack raises (the `assert` in `__exit__`)
rather than silently popping a different store. -/
theorem exit_non_lifo_raises (sid t : Nat) (st : SysSt)
    (htop : st.stack.head? = some t) (hne : t ≠ sid) :
    exitStore sid st = .error .assertionError := by
  cases hst : st.stack with
  | nil => rw [hst] at htop; exact absurd htop (by simp)
  | cons top rest =>
    rw [hst] at htop
    simp only [List.head?_cons, Option.some.injEq] at htop
    subst htop
    simp only [exitStore, hst]
    rw [if_neg hne]

/-- Witness for C6: with store 1 on top of the stack, exiting store 0
raises `AssertionError`. -/
theorem exit_non_lifo_raises_witness :
    exitStore 0 ⟨fun _ => initStore, [1]⟩ = .error .assertionError :=
  exit_non_lifo_raises 0 1 ⟨fun _ => initStore, [1]⟩ rfl (by decide)

/-- Claim C8: for a wrapper around an object `x` whose baseline refcount
`b` was recorded at context entry, `release` at refcount `rcNow` emits a
leak warning iff `rcNow > b`, and in both cases deletes the wrapper's
object reference and returns normally. -/
theorem release_warns_iff_leak {α : Type} (w : SharedObject α) (x : α)
    (b rcNow : Nat) (hobj : w.objAttr = some (some x)) (hb : 0 < b) :
    SharedObject.enterCtx w b = .ok ({ w with rc := some b }, some x) ∧
    SharedObject.release { w with rc := some b } rcNow
      = .ok ({ w with rc := some b, objAttr := none }, decide (b < rcNow)) := by
  constructor
  · simp only [SharedObject.enterCtx, hobj]
  · have hb2 : decide (b ≠ 0) = true := by simp [Nat.pos_iff_ne_zero.mp hb]
    simp only [SharedObject.release, hobj, hb2, Bool.true_and]

/-- Witness for C8: wrapper around `7` entered at baseline refcount 2;
releasing at refcount 3 warns, and the reference is dropped. -/
theorem release_warns_iff_leak_witness :
    SharedObject.enterCtx (⟨some (some 7), none, false⟩ : SharedObject Nat) 2
      = .ok (⟨some (some 7), some 2, false⟩, some 7) ∧
    SharedObject.release (⟨some (some 7), some 2, false⟩ : SharedObject Nat) 3
      = .ok (⟨none, some 2, false⟩, true) :=
  release_warns_iff_leak ⟨some (some 7), none, false⟩ 7 2 3 rfl (by decide)

/-- Claim C10: `SharedObject.release` is not idempotent: once a release
has deleted the wrapped-object attribute, a second `release` raises
`AttributeError`. -/
theorem release_not_idempotent {α : Type} (w w1 : SharedObject α) (x : α)
    (rc1 rc2 : Nat) (warned : Bool)
    (hobj : w.objAttr = some (some x))
    (h1 : SharedObject.release w rc1 = .ok (w1, warned)) :
    SharedObject.release w1 rc2 = .error .attributeError := by
  have hw1 : w1.objAttr = none := by
    simp only [SharedObject.release, hobj, Except.ok.injEq, Prod.mk.injEq] at h1
    rw [← h1.1]
  simp only [SharedObject.release, hw1]

/-- Witness for C10: releasing a wrapper around `0` once succeeds;
releasing the result raises `AttributeError`. -/
theorem release_not_idempotent_witness :
    SharedObject.release (⟨none, none, false⟩ : SharedObject Nat) 1
      = .error .attributeError :=
  release_not_idempotent ⟨some (some 0), none, false⟩ ⟨none, none, false⟩
    0 1 1 false rfl rfl

/-- Claim C4: a serialized/deserialized copy of a handle (via
`__getstate__`) has its ownership flag false and its resource
identifiers (file path, or skeleton bytes and segment descriptors)
unchanged, and `close()` on the copy never deletes the backing file nor
unlinks any shared-memory segment. -/
theorem getstate_copy_never_releases (hb : BPKPersisted) (hs : SHMPersisted)
    (fs : FS) (reg : SHMReg) (u cf u2 : Bool) :
    hb.getstate.is_owner = false ∧
    hb.getstate.path = hb.path ∧
    (BPKPersisted.close hb.getstate fs u cf).map (fun r => r.2.1) = .ok fs ∧
    hs.getstate.is_owner = false ∧
    hs.getstate.pickle_data = hs.pickle_data ∧
    hs.getstate.buffer_specs = hs.buffer_specs ∧
    SHMPersisted.close hs.getstate reg u2 = .ok (hs.getstate, reg) := by
  refine ⟨rfl, rfl, ?_, rfl, rfl, rfl, ?_⟩
  · simp only [BPKPersisted.close, BPKPersisted.getstate]
    cases hbf : hb.bpk_file <;>
      simp [hbf, Except.map, BPKPersisted.closePhase2]
  · simp [SHMPersisted.close, SHMPersisted.getstate]

end LKShare
